import Mathlib

/-!
Shallow embedding of `src/chrome-helper.ts` (browserless chrome lifecycle
helper).  JavaScript values are modelled as follows: a possibly-undefined
string field becomes `Option String`; JS loose truthiness of a string
(`undefined` and `""` are falsy) is `strTruthy`; a node `url.parse` result
becomes the record `ParsedUrl` and `url.format` becomes `urlFormat`.
Effectful steps (timers, file deletion, listener management, the control
connection) are recorded as explicit effect counters so that statements
about side effects are statements about data.
-/

namespace ChromeHelper

/-- JS loose truthiness for an optional string: `undefined` and `""` are
falsy, every other string is truthy. -/
def strTruthy : Option String → Bool
  | none => false
  | some s => s ≠ ""

/-- Boolean prefix test on character lists. -/
def charsPrefixOf : List Char → List Char → Bool
  | [], _ => true
  | _ :: _, [] => false
  | c :: cs, h :: hs => c == h && charsPrefixOf cs hs

/-- Boolean infix (contiguous-sublist) test on character lists. -/
def charsInfixOf : List Char → List Char → Bool
  | needle, [] => charsPrefixOf needle []
  | needle, h :: hs => charsPrefixOf needle (h :: hs) || charsInfixOf needle hs

/-- JavaScript `hay.includes(needle)` on strings (substring containment). -/
def strIncludes (hay needle : String) : Bool :=
  charsInfixOf needle.toList hay.toList

/-- JavaScript `s.startsWith(p)` on strings. -/
def strStartsWith (s p : String) : Bool :=
  charsPrefixOf p.toList s.toList

/-- JavaScript `s.split(',')`: comma-split keeping empty pieces. -/
def jsSplitComma (s : String) : List String :=
  (s.toList.splitOn ',').map (fun cs => String.mk cs)

/-- A node `url.parse` result restricted to the components
`chrome-helper.ts` reads or writes: `protocol`, `slashes`, `host`
(which in node subsumes the port when formatting), `port`, `pathname`
and `search`. -/
structure ParsedUrl where
  protocol : Option String
  slashes : Bool
  host : Option String
  port : Option String
  pathname : Option String
  search : Option String
deriving Repr, DecidableEq

/-- node's `parsed.path`: pathname followed by the search string. -/
def ParsedUrl.path (u : ParsedUrl) : String :=
  u.pathname.getD "" ++ u.search.getD ""

/-- node `url.format` on the components of `ParsedUrl`: when a `host` is
present it is used verbatim (it already carries the port), so the `port`
component does not reappear in the output. -/
def urlFormat (u : ParsedUrl) : String :=
  (match u.protocol with | some p => p ++ ":" | none => "") ++
  (if u.slashes then "//" else "") ++
  u.host.getD "" ++ u.pathname.getD "" ++ u.search.getD ""

/-- One value of a parsed query-string entry: absent, a single string, or
an array of strings (node's `ParsedUrlQuery` allows all three). -/
inductive QueryVal where
  | undef
  | str (s : String)
  | arr (xs : List String)
deriving Repr, DecidableEq

/-- Result type of `parseIgnoreDefaultArgs`: `boolean | string[]`. -/
inductive IgnoreDefaultArgs where
  | bool (b : Bool)
  | list (xs : List String)
deriving Repr, DecidableEq

/-- `parseIgnoreDefaultArgs` (chrome-helper.ts lines 74-88): `undefined`
or the literal `"false"` give `false`; `""` or `"true"` give `true`; an
array is returned unchanged; any other single string is comma-split. -/
def parseIgnoreDefaultArgs : QueryVal → IgnoreDefaultArgs
  | .undef => .bool false
  | .str s =>
      if s = "false" then .bool false
      else if s = "" ∨ s = "true" then .bool true
      else .list (jsSplitComma s)
  | .arr xs => .list xs

/-- The compiled-in defaults from `./config` consulted by
`convertUrlParamsToLaunchOpts`; they are external configuration, so the
embedding quantifies over them. -/
structure Defaults where
  headless : Bool
  blockAds : Bool
  dumpio : Bool
  ignoreHTTPSErrors : Bool
deriving Repr, DecidableEq

/-- The named query-string fields `convertUrlParamsToLaunchOpts`
destructures (each possibly absent).  The `--`-prefixed passthrough
arguments are orthogonal to the boolean coercions and are modelled where
`launchChrome` consumes them. -/
structure Query where
  blockAds : Option String
  headless : Option String
  ignoreHTTPSErrors : Option String
  pause : Option String
  dumpio : Option String
  ignoreDefaultArgs : QueryVal
deriving Repr, DecidableEq

/-- The boolean-valued part of `ILaunchOptions` produced by
`convertUrlParamsToLaunchOpts`. -/
structure ConvertedOpts where
  blockAds : Bool
  headless : Bool
  dumpio : Bool
  ignoreHTTPSErrors : Bool
  pauseOnConnect : Bool
  ignoreDefaultArgs : IgnoreDefaultArgs
deriving Repr, DecidableEq

/-- `convertUrlParamsToLaunchOpts` (chrome-helper.ts lines 333-380),
restricted to the fields the claims are about.  Note the asymmetry in the
source: `headless` and `dumpio` are compared against the literal string
`"false"`, while `blockAds`, `ignoreHTTPSErrors` and `pause` only test
`_.isUndefined` (presence). -/
def convertUrlParamsToLaunchOpts (d : Defaults) (q : Query) : ConvertedOpts :=
  { blockAds := q.blockAds.isSome || d.blockAds
    headless := match q.headless with
      | some s => s ≠ "false"
      | none => d.headless
    dumpio := match q.dumpio with
      | some s => s ≠ "false"
      | none => d.dumpio
    ignoreHTTPSErrors := q.ignoreHTTPSErrors.isSome || d.ignoreHTTPSErrors
    pauseOnConnect := q.pause.isSome
    ignoreDefaultArgs := parseIgnoreDefaultArgs q.ignoreDefaultArgs }

/-- `ILaunchOptions` as consumed by `launchChrome` and
`canUsePrebootedChrome`: the possibly-undefined fields are `Option`s. -/
structure ILaunchOptions where
  args : Option (List String)
  headless : Option Bool
  userDataDir : Option String
  playwright : Bool
  keepalive : Option Nat := none
  trackingId : Option String := none
deriving Repr, DecidableEq

/-- The fixed baseline arguments prepended to every launch
(chrome-helper.ts lines 55-60). -/
def BROWSERLESS_ARGS : List String :=
  ["--no-sandbox", "--enable-logging", "--v1=1", "--disable-dev-shm-usage"]

/-- Result of the pure argument-building part of `launchChrome`:
the final argument list, the `headless` option as passed to the engine,
and the data-directory bookkeeping. -/
structure LaunchConfig where
  args : List String
  headless : Option Bool
  isUsingTempDataDir : Bool
  browserlessDataDir : Option String
  hasUserDataDirArg : Bool
  playwright : Bool
deriving Repr, DecidableEq

/-- The argument-assembly portion of `launchChrome` (chrome-helper.ts
lines 382-445), with the allocated `port` and the directory produced by
`getUserDataDir()` passed in as parameters (they come from the
environment).  Steps, in source order: prepend `BROWSERLESS_ARGS` and
append the `--remote-debugging-port` flag; detect an explicit
`--user-data-dir=` argument and any `--headless` argument; when no
explicit data-dir argument exists, choose `opts.userDataDir` (JS
truthiness) or the generated directory and push it as an argument; when
headless, push `--remote-debugging-pipe`; for playwright, filter out
arguments starting with `--user-data-dir` and the exact argument
`--remote-debugging-pipe`, and force `headless` to `true`. -/
def launchArgs0 (opts : ILaunchOptions) (port : Nat) : List String :=
  BROWSERLESS_ARGS ++ opts.args.getD [] ++ ["--remote-debugging-port=" ++ toString port]

/-- `hasUserDataDir` (line 404): some argument contains
`--user-data-dir=` as a substring. -/
def hasUserDataDirIn (args : List String) : Bool :=
  args.any (fun a => strIncludes a "--user-data-dir=")

/-- `isHeadless` (lines 405-408): an explicit `--headless...` argument,
or a `headless` option that is undefined or `true`. -/
def isHeadlessIn (opts : ILaunchOptions) (args : List String) : Bool :=
  args.any (fun a => strStartsWith a "--headless") ||
    (match opts.headless with
      | none => true
      | some h => h)

/-- The directory pushed as `--user-data-dir` when none was given as an
argument: `opts.userDataDir || await getUserDataDir()` (line 417), with
JS truthiness on `opts.userDataDir`. -/
def chosenDataDir (opts : ILaunchOptions) (generatedDataDir : String) : String :=
  if strTruthy opts.userDataDir then opts.userDataDir.getD "" else generatedDataDir

/-- The keep-filter applied to the argument list in the playwright
branch (lines 430-434). -/
def playwrightArgFilter (a : String) : Bool :=
  !strStartsWith a "--user-data-dir" && a ≠ "--remote-debugging-pipe"

def buildLaunchArgs (opts : ILaunchOptions) (port : Nat) (generatedDataDir : String) :
    LaunchConfig :=
  let args0 := launchArgs0 opts port
  let isPlaywright := opts.playwright
  let hasUserDataDir := hasUserDataDirIn args0
  let isHeadless := isHeadlessIn opts args0
  let isUsingTempDataDir := !(hasUserDataDir || strTruthy opts.userDataDir)
  let browserlessDataDir : Option String :=
    if !hasUserDataDir then some (chosenDataDir opts generatedDataDir) else none
  let args1 :=
    if !hasUserDataDir then
      args0 ++ ["--user-data-dir=" ++ chosenDataDir opts generatedDataDir]
    else args0
  let args2 := if isHeadless then args1 ++ ["--remote-debugging-pipe"] else args1
  let args3 := if isPlaywright then args2.filter playwrightArgFilter else args2
  { args := args3
    headless := if isPlaywright then some true else opts.headless
    isUsingTempDataDir := isUsingTempDataDir
    browserlessDataDir := browserlessDataDir
    hasUserDataDirArg := hasUserDataDir
    playwright := isPlaywright }

/-- The configuration values `defaultLaunchArgs` reads from `./config`;
external, so quantified over. -/
structure Config where
  defaultHeadless : Bool
  defaultLaunchArgList : List String
deriving Repr, DecidableEq

/-- `canUsePrebootedChrome` (chrome-helper.ts lines 248-258): rejects a
request whose `headless` is defined and differs from the default, or
whose `args` is defined and differs from the default argument list in
LENGTH; everything else is accepted. -/
def canUsePrebootedChrome (c : Config) (launchArgs : ILaunchOptions) : Bool :=
  if (match launchArgs.headless with
      | some h => h != c.defaultHeadless
      | none => false) then false
  else if (match launchArgs.args with
      | some a => a.length != c.defaultLaunchArgList.length
      | none => false) then false
  else true

/-- The slice of an `IBrowser` instance's mutable state that the claims
are about.  `parsed` models `browser._parsed = url.parse(wsEndpoint)`;
`exitListenerInstalled` records whether the `once('exit', ...)` listener
installed on the owned browser process by `setupBrowser` is still
attached. -/
structure IBrowser where
  isOpen : Bool
  keepaliveTimeout : Option Nat
  browserlessDataDir : Option String
  wsEndpoint : String
  parsed : ParsedUrl
  id : String
  trackingId : Option String
  exitListenerInstalled : Bool
deriving Repr, DecidableEq

/-- Counters for the externally visible side effects of one
`closeBrowser` call.  `browserCloseCalls` counts invocations of
`browser.close()` (the hard close of the control connection) and
`browserDisconnectCalls` invocations of `browser.disconnect()`;
`globalExitListenerRemovals` counts `process.removeAllListeners('exit')`
on the Node global process object, and
`browserProcessExitListenerRemovals` counts removals of the exit
listener installed on `browser._browserProcess`. -/
structure TeardownEffects where
  clearTimeoutCalls : Nat
  rimrafCalls : Nat
  registryRemovals : Nat
  browserCloseCalls : Nat
  browserDisconnectCalls : Nat
  globalExitListenerRemovals : Nat
  browserProcessExitListenerRemovals : Nat
deriving Repr, DecidableEq

/-- The all-zero effect record: the call did nothing observable. -/
def noEffects : TeardownEffects := ⟨0, 0, 0, 0, 0, 0, 0⟩

/-- Componentwise sum of effect counters, to talk about the total side
effects of a sequence of calls. -/
def addEffects (e1 e2 : TeardownEffects) : TeardownEffects :=
  { clearTimeoutCalls := e1.clearTimeoutCalls + e2.clearTimeoutCalls
    rimrafCalls := e1.rimrafCalls + e2.rimrafCalls
    registryRemovals := e1.registryRemovals + e2.registryRemovals
    browserCloseCalls := e1.browserCloseCalls + e2.browserCloseCalls
    browserDisconnectCalls := e1.browserDisconnectCalls + e2.browserDisconnectCalls
    globalExitListenerRemovals := e1.globalExitListenerRemovals + e2.globalExitListenerRemovals
    browserProcessExitListenerRemovals :=
      e1.browserProcessExitListenerRemovals + e2.browserProcessExitListenerRemovals }

/-- Result of one `closeBrowser` call: the instance's state afterwards,
the registry (`runningBrowsers`) afterwards, and the effects performed
by this call. -/
structure CloseResult where
  browser : IBrowser
  registry : List IBrowser
  effects : TeardownEffects
deriving Repr, DecidableEq

/-- `closeBrowser` (chrome-helper.ts lines 552-585).  Guard: if
`_isOpen` is already false, return immediately with no effects.
Otherwise set `_isOpen = false` and then: clear the keepalive timer if
one is set; `rimraf` the data directory recorded in
`_browserlessDataDir` if it is non-null; filter the instance out of
`runningBrowsers` by `_wsEndpoint`; call `browser.close()` (the source
calls `close`, not `disconnect`, despite its own comment block); call
`process.removeAllListeners('exit')`, which in that scope is the Node
GLOBAL `process`, so the exit listener on `_browserProcess` stays
attached (`exitListenerInstalled` is unchanged). -/
def closeBrowser (b : IBrowser) (reg : List IBrowser) : CloseResult :=
  if !b.isOpen then
    { browser := b, registry := reg, effects := noEffects }
  else
    { browser := { b with isOpen := false }
      registry := reg.filter (fun x => x.wsEndpoint ≠ b.wsEndpoint)
      effects :=
        { clearTimeoutCalls := if b.keepaliveTimeout.isSome then 1 else 0
          rimrafCalls := if b.browserlessDataDir.isSome then 1 else 0
          registryRemovals := 1
          browserCloseCalls := 1
          browserDisconnectCalls := 0
          globalExitListenerRemovals := 1
          browserProcessExitListenerRemovals := 0 } }

/-- A target descriptor as returned by the instance's local
`GET /json/list`.  The two URL-valued fields are carried in parsed form
(`url.parse` of the original string), since `getDebuggingPages` only
ever consumes them through `url.parse`; the remaining metadata fields
are the ones the Chrome JSON list publishes. -/
structure JsonSession where
  id : String
  title : String
  type : String
  url : String
  description : String
  webSocketDebuggerUrl : ParsedUrl
  devtoolsFrontendUrl : ParsedUrl
deriving Repr, DecidableEq

/-- The rewritten, externally addressable descriptor (`ISession`)
produced by `getDebuggingPages` for one target. -/
structure ISession where
  id : String
  title : String
  type : String
  url : String
  description : String
  browserId : String
  browserWSEndpoint : String
  devtoolsFrontendUrl : String
  port : String
  trackingId : Option String
  webSocketDebuggerUrl : String
deriving Repr, DecidableEq

/-- The proxy-related configuration values from `./config` read by
`getDebuggingPages`; external, so quantified over.  Optional strings
follow JS truthiness. -/
structure ProxyConfig where
  proxyHost : Option String
  proxyPort : Option String
  proxySsl : Bool
  host : Option String
  port : String
deriving Repr, DecidableEq

/-- The `externalHost` expression of `getDebuggingPages` (lines
277-279): the proxy host (with `:PROXY_PORT` appended when truthy) when
`PROXY_HOST` is truthy, otherwise `HOST || '127.0.0.1'` with the bind
port. -/
def externalHost (c : ProxyConfig) : String :=
  if strTruthy c.proxyHost then
    c.proxyHost.getD "" ++ (if strTruthy c.proxyPort then ":" ++ c.proxyPort.getD "" else "")
  else
    (if strTruthy c.host then c.host.getD "" else "127.0.0.1") ++ ":" ++ c.port

/-- The `externalProtocol` expression (line 281): `wss` when SSL is
configured for the proxy, else `ws`. -/
def externalProtocol (c : ProxyConfig) : String :=
  if c.proxySsl then "wss" else "ws"

/-- The per-target rewrite inside `getDebuggingPages` (lines 289-324):
override `host`, `protocol` and `slashes` of the parsed per-target
WebSocket URL and of the parsed instance endpoint; rebuild
`devtoolsFrontendUrl` from its own pathname plus a search string that
encodes the external protocol, host and the rewritten WebSocket path;
spread every other field of the source descriptor into the output and
add `browserId`, `port` and `trackingId` from the instance. -/
def rewriteSession (c : ProxyConfig) (b : IBrowser) (port : String) (s : JsonSession) :
    ISession :=
  let proxyHost := externalHost c
  let proto := externalProtocol c
  let parsedWebSocketDebuggerUrl : ParsedUrl :=
    { s.webSocketDebuggerUrl with
        host := some proxyHost, protocol := some proto, slashes := true }
  let parsedWsEndpoint : ParsedUrl :=
    { b.parsed with host := some proxyHost, protocol := some proto, slashes := true }
  { id := s.id
    title := s.title
    type := s.type
    url := s.url
    description := s.description
    browserId := b.id
    browserWSEndpoint := urlFormat parsedWsEndpoint
    devtoolsFrontendUrl := urlFormat
      { protocol := none, slashes := false, host := none, port := none
        pathname := s.devtoolsFrontendUrl.pathname
        search := some ("?" ++ proto ++ "=" ++ proxyHost ++ parsedWebSocketDebuggerUrl.path) }
    port := port
    trackingId := b.trackingId
    webSocketDebuggerUrl := urlFormat parsedWebSocketDebuggerUrl }

/-- The body of the per-instance async closure of `getDebuggingPages`
(lines 274-325): a falsy `browser._parsed.port` throws; otherwise the
instance's target list is fetched (`fetch` is the oracle for the
outbound `GET /json/list`, keyed by port) and each target rewritten.
Either the missing port or a failed fetch rejects this instance's
promise. -/
def getBrowserSessions (c : ProxyConfig) (fetch : String → Except String (List JsonSession))
    (b : IBrowser) : Except String (List ISession) :=
  if !strTruthy b.parsed.port then
    .error "Error finding port in browser endpoint"
  else
    match fetch (b.parsed.port.getD "") with
    | .error e => .error e
    | .ok sessions => .ok (sessions.map (rewriteSession c b (b.parsed.port.getD "")))

/-- `Promise.all` over a list of settled per-instance results followed
by `_.flatten`: any rejected element rejects the whole aggregate,
otherwise the session lists are concatenated. -/
def collectAll : List (Except String (List ISession)) → Except String (List ISession)
  | [] => .ok []
  | .error e :: _ => .error e
  | .ok s :: rest =>
      match collectAll rest with
      | .error e => .error e
      | .ok t => .ok (s ++ t)

/-- `getDebuggingPages` (lines 272-329): map the per-instance lookup
over `runningBrowsers` and aggregate with `Promise.all` + flatten. -/
def getDebuggingPages (c : ProxyConfig) (fetch : String → Except String (List JsonSession))
    (browsers : List IBrowser) : Except String (List ISession) :=
  collectAll (browsers.map (getBrowserSessions c fetch))

/-- Outcome of one external hook invocation: resolves or rejects. -/
inductive HookResult where
  | ok
  | throws
deriving Repr, DecidableEq, BEq

/-- Result of `setupBrowser`: the promise outcome, the registry
afterwards, and how many page-hook rejections were left unhandled
(the `setupPage` calls are not awaited, so their rejections neither
propagate to the caller nor get caught and logged). -/
structure SetupOutcome where
  result : Except String IBrowser
  registry : List IBrowser
  unhandledPageHookRejections : Nat
deriving Repr

/-- `setupBrowser` (chrome-helper.ts lines 151-230) as a function of the
hook outcomes.  Source order: populate the instance fields (`_isOpen =
true`, `_keepaliveTimeout = null`, ...); `await browserHook({browser})`
— NOT wrapped in try/catch, so a rejection rejects `setupBrowser` itself
before the exit listener, the page setup and the registry push run;
install the process-exit listener; install the `targetcreated` listener;
kick off `setupPage` for each existing page WITHOUT awaiting (each
`pageHook` rejection becomes an unhandled rejection and does not affect
the result); push the instance onto `runningBrowsers`; return it. -/
def setupBrowser (browserHookOutcome : HookResult) (pageHookOutcomes : List HookResult)
    (b : IBrowser) (reg : List IBrowser) : SetupOutcome :=
  let b' : IBrowser :=
    { b with isOpen := true, keepaliveTimeout := none, exitListenerInstalled := true }
  match browserHookOutcome with
  | .throws =>
      { result := .error "browserHook rejected"
        registry := reg
        unhandledPageHookRejections := 0 }
  | .ok =>
      { result := .ok b'
        registry := reg ++ [b']
        unhandledPageHookRejections :=
          (pageHookOutcomes.filter (fun h => h == HookResult.throws)).length }

/-- Whether a settled promise resolved (`.ok`) rather than rejected. -/
def resultIsOk {ε α : Type} : Except ε α → Bool
  | .ok _ => true
  | .error _ => false

/-! ### Concrete example inputs used by the counterexample and witness
theorems below. -/

/-- A live instance with both a keepalive timer and a temp data dir. -/
def exBrowser1 : IBrowser :=
  { isOpen := true
    keepaliveTimeout := some 5
    browserlessDataDir := some "/tmp/browserless-data-dir-1"
    wsEndpoint := "ws://127.0.0.1:41000/devtools/browser/abc"
    parsed :=
      { protocol := some "ws", slashes := true, host := some "127.0.0.1:41000"
        port := some "41000", pathname := some "/devtools/browser/abc", search := none }
    id := "abc"
    trackingId := none
    exitListenerInstalled := true }

/-- A live instance for the teardown step-5 evaluation. -/
def exBrowser4 : IBrowser :=
  { isOpen := true
    keepaliveTimeout := none
    browserlessDataDir := none
    wsEndpoint := "ws://127.0.0.1:41004/devtools/browser/def"
    parsed :=
      { protocol := some "ws", slashes := true, host := some "127.0.0.1:41004"
        port := some "41004", pathname := some "/devtools/browser/def", search := none }
    id := "def"
    trackingId := none
    exitListenerInstalled := true }

/-- Launch options whose top-level `userDataDir` is caller-supplied and
whose argument list has no explicit `--user-data-dir=`. -/
def c3Opts : ILaunchOptions :=
  { args := some [], headless := none, userDataDir := some "/data/profile", playwright := false }

/-- The instance state produced by launching with `c3Opts`: its
`_browserlessDataDir` is the caller-supplied directory. -/
def c3Browser : IBrowser :=
  { isOpen := true
    keepaliveTimeout := none
    browserlessDataDir := some "/data/profile"
    wsEndpoint := "ws://127.0.0.1:41003/devtools/browser/c3a"
    parsed :=
      { protocol := some "ws", slashes := true, host := some "127.0.0.1:41003"
        port := some "41003", pathname := some "/devtools/browser/c3a", search := none }
    id := "c3a"
    trackingId := none
    exitListenerInstalled := true }

/-- Playwright launch options carrying an explicit caller argument that
names the debugging pipe switch with a value. -/
def c6Opts : ILaunchOptions :=
  { args := some ["--remote-debugging-pipe=1"], headless := some false
    userDataDir := none, playwright := true }

/-- Playwright launch options for the amended-claim witness. -/
def c6WOpts : ILaunchOptions :=
  { args := some ["--user-data-dir=/caller/dir", "--foo"], headless := some false
    userDataDir := some "/caller/dir", playwright := true }

/-- Compiled-in defaults for the C7 scenario: all-false booleans except
headless. -/
def c7Defaults : Defaults :=
  { headless := true, blockAds := false, dumpio := false, ignoreHTTPSErrors := false }

/-- A request whose `blockAds` field is the literal string `"false"`. -/
def c7Query : Query :=
  { blockAds := some "false", headless := none, ignoreHTTPSErrors := none
    pause := none, dumpio := none, ignoreDefaultArgs := QueryVal.undef }

/-- Two live instances for the listing-aggregation scenario. -/
def c2BrowserA : IBrowser :=
  { isOpen := true
    keepaliveTimeout := none
    browserlessDataDir := none
    wsEndpoint := "ws://127.0.0.1:41001/devtools/browser/aaa"
    parsed :=
      { protocol := some "ws", slashes := true, host := some "127.0.0.1:41001"
        port := some "41001", pathname := some "/devtools/browser/aaa", search := none }
    id := "aaa"
    trackingId := none
    exitListenerInstalled := true }

def c2BrowserB : IBrowser :=
  { isOpen := true
    keepaliveTimeout := none
    browserlessDataDir := none
    wsEndpoint := "ws://127.0.0.1:41002/devtools/browser/bbb"
    parsed :=
      { protocol := some "ws", slashes := true, host := some "127.0.0.1:41002"
        port := some "41002", pathname := some "/devtools/browser/bbb", search := none }
    id := "bbb"
    trackingId := none
    exitListenerInstalled := true }

/-- One target advertised by instance B. -/
def c2Session : JsonSession :=
  { id := "PAGE1", title := "t", type := "page", url := "http://example.com/"
    description := ""
    webSocketDebuggerUrl :=
      { protocol := some "ws", slashes := true, host := some "127.0.0.1:41002"
        port := some "41002", pathname := some "/devtools/page/PAGE1", search := none }
    devtoolsFrontendUrl :=
      { protocol := none, slashes := false, host := none, port := none
        pathname := some "/devtools/inspector.html"
        search := some "?ws=127.0.0.1:41002/devtools/page/PAGE1" } }

/-- Fetch oracle: instance A's `GET /json/list` rejects, instance B's
resolves with one target. -/
def c2Fetch : String → Except String (List JsonSession) :=
  fun p => if p = "41001" then .error "fetch failed" else .ok [c2Session]

/-- Proxy configuration with no external proxy configured. -/
def c2Config : ProxyConfig :=
  { proxyHost := none, proxyPort := none, proxySsl := false, host := none, port := "3000" }

/-- A not-yet-registered instance entering `setupBrowser`. -/
def c5Browser : IBrowser :=
  { isOpen := false
    keepaliveTimeout := none
    browserlessDataDir := none
    wsEndpoint := "ws://127.0.0.1:41005/devtools/browser/eee"
    parsed :=
      { protocol := some "ws", slashes := true, host := some "127.0.0.1:41005"
        port := some "41005", pathname := some "/devtools/browser/eee", search := none }
    id := "eee"
    trackingId := none
    exitListenerInstalled := false }

/-! ### Theorems -/

/-- C8: `parseIgnoreDefaultArgs` maps `undefined` to `false`, `"false"`
to `false`, `""` to `true`, `"true"` to `true`, any other single string
to its comma-split token array (e.g. `"a,b"` to `["a","b"]`), and an
array input to that same array unchanged. -/
theorem c8_parseIgnoreDefaultArgs_table :
    parseIgnoreDefaultArgs QueryVal.undef = IgnoreDefaultArgs.bool false ∧
    parseIgnoreDefaultArgs (QueryVal.str "false") = IgnoreDefaultArgs.bool false ∧
    parseIgnoreDefaultArgs (QueryVal.str "") = IgnoreDefaultArgs.bool true ∧
    parseIgnoreDefaultArgs (QueryVal.str "true") = IgnoreDefaultArgs.bool true ∧
    parseIgnoreDefaultArgs (QueryVal.str "a,b") = IgnoreDefaultArgs.list ["a", "b"] ∧
    (∀ xs : List String, parseIgnoreDefaultArgs (QueryVal.arr xs) = IgnoreDefaultArgs.list xs) ∧
    (∀ s : String, s ≠ "false" → s ≠ "" → s ≠ "true" →
      parseIgnoreDefaultArgs (QueryVal.str s) = IgnoreDefaultArgs.list (jsSplitComma s)) := by
  refine ⟨by decide, by decide, by decide, by decide, by decide, fun xs => rfl,
    fun s h1 h2 h3 => ?_⟩
  have hor : ¬(s = "" ∨ s = "true") := by
    intro h
    cases h with
    | inl h => exact h2 h
    | inr h => exact h3 h
  simp [parseIgnoreDefaultArgs, h1, hor]

/-- C8 witness: the general comma-split clause evaluated at `"x,y"`. -/
theorem c8_witness :
    parseIgnoreDefaultArgs (QueryVal.str "x,y") = IgnoreDefaultArgs.list ["x", "y"] := by
  have h := c8_parseIgnoreDefaultArgs_table.2.2.2.2.2.2 "x,y"
    (by decide) (by decide) (by decide)
  rw [h]
  decide

/-- C7 counterexample: with the compiled-in default `blockAds = false`,
a request carrying the literal string `"false"` for `blockAds` yields
`blockAds = true`, because the source only tests presence of the field —
refuting the claim that every boolean-like field maps `"false"` to
`false`. -/
theorem c7_counterexample :
    c7Query.blockAds = some "false" ∧ c7Defaults.blockAds = false ∧
    (convertUrlParamsToLaunchOpts c7Defaults c7Query).blockAds = true := by
  decide

/-- C7 amended: only `headless` and `dumpio` compare against the literal
string `"false"`; `blockAds`, `ignoreHTTPSErrors` and `pause` are
presence checks, so for them every non-undefined value — including the
string `"false"` — yields `true`.  Undefined fields take the defaults
(`pause`'s being `false`). -/
theorem c7_amended_boolean_coercions (d : Defaults) (q : Query) :
    ((convertUrlParamsToLaunchOpts d q).headless = false ↔
      q.headless = some "false" ∨ (q.headless = none ∧ d.headless = false)) ∧
    ((convertUrlParamsToLaunchOpts d q).dumpio = false ↔
      q.dumpio = some "false" ∨ (q.dumpio = none ∧ d.dumpio = false)) ∧
    ((convertUrlParamsToLaunchOpts d q).blockAds = true ↔
      q.blockAds.isSome = true ∨ d.blockAds = true) ∧
    ((convertUrlParamsToLaunchOpts d q).ignoreHTTPSErrors = true ↔
      q.ignoreHTTPSErrors.isSome = true ∨ d.ignoreHTTPSErrors = true) ∧
    ((convertUrlParamsToLaunchOpts d q).pauseOnConnect = true ↔ q.pause.isSome = true) := by
  refine ⟨?_, ?_, ?_, ?_, ?_⟩
  · cases hq : q.headless with
    | none => simp [convertUrlParamsToLaunchOpts, hq]
    | some s => simp [convertUrlParamsToLaunchOpts, hq]
  · cases hq : q.dumpio with
    | none => simp [convertUrlParamsToLaunchOpts, hq]
    | some s => simp [convertUrlParamsToLaunchOpts, hq]
  · simp [convertUrlParamsToLaunchOpts]
  · simp [convertUrlParamsToLaunchOpts]
  · simp [convertUrlParamsToLaunchOpts]

/-- C10: the preboot-compatibility check compares a defined `args` list
to the default only by LENGTH — for any option bag whose `headless` is
unset or equal to the default and whose `args` has the default's length,
it returns `true`, whatever the argument contents are. -/
theorem c10_canUsePrebootedChrome_length_only (c : Config) (opts : ILaunchOptions)
    (a : List String)
    (hh : opts.headless = none ∨ opts.headless = some c.defaultHeadless)
    (ha : opts.args = some a)
    (hlen : a.length = c.defaultLaunchArgList.length) :
    canUsePrebootedChrome c opts = true := by
  unfold canUsePrebootedChrome
  rcases hh with h | h <;> rw [h, ha] <;> simp [hlen]

/-- C10 witness: contents entirely different from the defaults, same
length, headless unset. -/
theorem c10_witness :
    canUsePrebootedChrome
      { defaultHeadless := true, defaultLaunchArgList := ["--no-sandbox", "--enable-logging"] }
      { args := some ["--totally", "--different"], headless := none
        userDataDir := none, playwright := false } = true :=
  c10_canUsePrebootedChrome_length_only _ _ ["--totally", "--different"]
    (Or.inl rfl) rfl (by decide)

/-- C1: teardown is idempotent.  For any open instance, the first
`closeBrowser` call leaves `isOpen = false`; the second call on the
same instance returns immediately (state and registry unchanged) with
no effects, and the total side effects across both calls are exactly
those of the first call: one registry removal, one close of the control
connection, one timer cancellation when a timer was set, one recursive
directory deletion when a data dir was recorded. -/
theorem c1_closeBrowser_idempotent (b : IBrowser) (reg : List IBrowser)
    (hopen : b.isOpen = true) :
    (closeBrowser b reg).browser.isOpen = false ∧
    (closeBrowser (closeBrowser b reg).browser (closeBrowser b reg).registry).browser
      = (closeBrowser b reg).browser ∧
    (closeBrowser (closeBrowser b reg).browser (closeBrowser b reg).registry).registry
      = (closeBrowser b reg).registry ∧
    (closeBrowser (closeBrowser b reg).browser (closeBrowser b reg).registry).effects
      = noEffects ∧
    addEffects (closeBrowser b reg).effects
        (closeBrowser (closeBrowser b reg).browser (closeBrowser b reg).registry).effects
      = { clearTimeoutCalls := if b.keepaliveTimeout.isSome then 1 else 0
          rimrafCalls := if b.browserlessDataDir.isSome then 1 else 0
          registryRemovals := 1
          browserCloseCalls := 1
          browserDisconnectCalls := 0
          globalExitListenerRemovals := 1
          browserProcessExitListenerRemovals := 0 } := by
  simp [closeBrowser, hopen, addEffects, noEffects]

/-- C1 witness: the double teardown of a concrete open instance with a
timer and a temp dir; the second call performs nothing. -/
theorem c1_witness :
    (closeBrowser (closeBrowser exBrowser1 [exBrowser1]).browser
        (closeBrowser exBrowser1 [exBrowser1]).registry).effects = noEffects :=
  (c1_closeBrowser_idempotent exBrowser1 [exBrowser1] rfl).2.2.2.1

/-- C4 evaluation: on any open instance, the teardown's step 5 as coded
performs one `browser.close()` (the hard close) and zero
`browser.disconnect()` calls, removes `exit` listeners from the global
Node `process` object, and leaves the exit listener installed on the
owned browser process attached — contradicting the source's own comment
block (lines 570-576), which prescribes `#disconnect` instead of
`close`. -/
theorem c4_closeBrowser_step5_behavior (b : IBrowser) (reg : List IBrowser)
    (hopen : b.isOpen = true) (hlist : b.exitListenerInstalled = true) :
    (closeBrowser b reg).effects.browserDisconnectCalls = 0 ∧
    (closeBrowser b reg).effects.browserCloseCalls = 1 ∧
    (closeBrowser b reg).effects.globalExitListenerRemovals = 1 ∧
    (closeBrowser b reg).effects.browserProcessExitListenerRemovals = 0 ∧
    (closeBrowser b reg).browser.exitListenerInstalled = true := by
  simp [closeBrowser, hopen, hlist]

/-- C4 witness: the step-5 behaviour evaluated on a concrete open
instance. -/
theorem c4_witness :
    (closeBrowser exBrowser4 [exBrowser4]).effects.browserDisconnectCalls = 0 ∧
    (closeBrowser exBrowser4 [exBrowser4]).effects.browserCloseCalls = 1 ∧
    (closeBrowser exBrowser4 [exBrowser4]).effects.globalExitListenerRemovals = 1 ∧
    (closeBrowser exBrowser4 [exBrowser4]).effects.browserProcessExitListenerRemovals = 0 ∧
    (closeBrowser exBrowser4 [exBrowser4]).browser.exitListenerInstalled = true :=
  c4_closeBrowser_step5_behavior exBrowser4 [exBrowser4] rfl rfl

/-- C3 counterexample: launching with the top-level option
`userDataDir = "/data/profile"` and no explicit `--user-data-dir=`
argument marks the instance as NOT owning a temp dir, yet records the
caller's directory as `_browserlessDataDir` — and teardown then deletes
it (`rimrafCalls = 1`), refuting "deleted if and only if
`usesTempDataDir` is true; a caller-supplied `userDataDir` is never
deleted". -/
theorem c3_counterexample :
    (buildLaunchArgs c3Opts 9222 "/tmp/gen").isUsingTempDataDir = false ∧
    (buildLaunchArgs c3Opts 9222 "/tmp/gen").browserlessDataDir = some "/data/profile" ∧
    c3Browser.browserlessDataDir = (buildLaunchArgs c3Opts 9222 "/tmp/gen").browserlessDataDir ∧
    (closeBrowser c3Browser []).effects.rimrafCalls = 1 := by
  decide

/-- C3 amended: teardown deletes the directory recorded in
`_browserlessDataDir` whenever it is non-null; that field is populated
exactly when no explicit `--user-data-dir=` argument was present, and
then holds the caller's top-level `userDataDir` when one was (truthily)
supplied — so a top-level `userDataDir` IS deleted on teardown, while a
directory passed as an explicit argument is never deleted. -/
theorem c3_amended_dataDir_deletion (opts : ILaunchOptions) (port : Nat) (gen : String)
    (b : IBrowser) (reg : List IBrowser)
    (hopen : b.isOpen = true)
    (hdir : b.browserlessDataDir = (buildLaunchArgs opts port gen).browserlessDataDir) :
    ((closeBrowser b reg).effects.rimrafCalls = 1 ↔
      (buildLaunchArgs opts port gen).hasUserDataDirArg = false) ∧
    ((buildLaunchArgs opts port gen).hasUserDataDirArg = true →
      (closeBrowser b reg).effects.rimrafCalls = 0) ∧
    ((buildLaunchArgs opts port gen).hasUserDataDirArg = false →
      strTruthy opts.userDataDir = true →
      b.browserlessDataDir = opts.userDataDir) := by
  have hbd : (buildLaunchArgs opts port gen).browserlessDataDir =
      if !hasUserDataDirIn (launchArgs0 opts port) then some (chosenDataDir opts gen)
      else none := rfl
  have hhu : (buildLaunchArgs opts port gen).hasUserDataDirArg =
      hasUserDataDirIn (launchArgs0 opts port) := rfl
  cases hu : hasUserDataDirIn (launchArgs0 opts port) with
  | false =>
      refine ⟨?_, ?_, ?_⟩
      · rw [hhu, hu]
        simp [closeBrowser, hopen, hdir, hbd, hu]
      · rw [hhu, hu]
        intro h
        exact absurd h (by decide)
      · intro _ ht
        rw [hdir, hbd, hu]
        simp [chosenDataDir, ht]
        cases hud : opts.userDataDir with
        | none => rw [hud] at ht; exact absurd ht (by decide)
        | some s => simp [hud]
  | true =>
      refine ⟨?_, ?_, ?_⟩
      · rw [hhu, hu]
        simp [closeBrowser, hopen, hdir, hbd, hu]
      · intro _
        simp [closeBrowser, hopen, hdir, hbd, hu]
      · rw [hhu, hu]
        intro h
        exact absurd h (by decide)

/-- C3 amended witness: with `c3Opts` (caller-supplied top-level
`userDataDir`, no explicit argument) the launched instance's recorded
directory is the caller's, and teardown deletes it. -/
theorem c3_witness :
    (closeBrowser c3Browser []).effects.rimrafCalls = 1 ∧
    c3Browser.browserlessDataDir = c3Opts.userDataDir := by
  have h := c3_amended_dataDir_deletion c3Opts 9222 "/tmp/gen" c3Browser [] rfl (by decide)
  exact ⟨h.1.mpr (by decide), h.2.2 (by decide) (by decide)⟩

/-- Everything surviving the playwright argument filter neither starts
with `--user-data-dir` nor is the exact string `--remote-debugging-pipe`. -/
theorem mem_filter_playwright (l : List String) (a : String)
    (ha : a ∈ l.filter playwrightArgFilter) :
    strStartsWith a "--user-data-dir" = false ∧ a ≠ "--remote-debugging-pipe" := by
  have h := (List.mem_filter.mp ha).2
  unfold playwrightArgFilter at h
  have h1 := (Bool.and_eq_true _ _).mp h
  refine ⟨?_, ?_⟩
  · have := h1.1
    cases hs : strStartsWith a "--user-data-dir" with
    | false => rfl
    | true => rw [hs] at this; exact absurd this (by decide)
  · exact of_decide_eq_true h1.2

/-- C6 counterexample: under the playwright variant, a caller-supplied
argument `--remote-debugging-pipe=1` survives into the final argument
list (the filter removes only the exact string `--remote-debugging-pipe`),
so the final list does contain a remote-debugging-pipe argument. -/
theorem c6_counterexample :
    "--remote-debugging-pipe=1" ∈ (buildLaunchArgs c6Opts 9222 "/tmp/gen").args ∧
    strStartsWith "--remote-debugging-pipe=1" "--remote-debugging-pipe" = true ∧
    c6Opts.playwright = true := by
  decide

/-- C6 amended: for every option bag under the playwright variant, the
final argument list contains no argument starting with
`--user-data-dir` and does not contain the exact argument
`--remote-debugging-pipe` (a caller-supplied variant carrying a value,
such as `--remote-debugging-pipe=1`, is not stripped), and the
`headless` option is forced to `true` regardless of the input. -/
theorem c6_amended_playwright_reset (opts : ILaunchOptions) (port : Nat) (gen : String)
    (hp : opts.playwright = true) :
    (∀ a ∈ (buildLaunchArgs opts port gen).args,
      strStartsWith a "--user-data-dir" = false ∧ a ≠ "--remote-debugging-pipe") ∧
    (buildLaunchArgs opts port gen).headless = some true := by
  constructor
  · intro a ha
    have hargs : (buildLaunchArgs opts port gen).args =
        (if isHeadlessIn opts (launchArgs0 opts port) then
          (if !hasUserDataDirIn (launchArgs0 opts port) then
            launchArgs0 opts port ++ ["--user-data-dir=" ++ chosenDataDir opts gen]
          else launchArgs0 opts port) ++ ["--remote-debugging-pipe"]
        else
          (if !hasUserDataDirIn (launchArgs0 opts port) then
            launchArgs0 opts port ++ ["--user-data-dir=" ++ chosenDataDir opts gen]
          else launchArgs0 opts port)).filter playwrightArgFilter := by
      simp [buildLaunchArgs, hp]
    rw [hargs] at ha
    exact mem_filter_playwright _ a ha
  · simp [buildLaunchArgs, hp]

/-- C6 amended witness: a playwright launch whose caller supplied an
explicit `--user-data-dir` argument; it does not survive, and headless
is forced. -/
theorem c6_witness :
    "--user-data-dir=/caller/dir" ∉ (buildLaunchArgs c6WOpts 9223 "/tmp/gen").args ∧
    (buildLaunchArgs c6WOpts 9223 "/tmp/gen").headless = some true := by
  have h := c6_amended_playwright_reset c6WOpts 9223 "/tmp/gen" rfl
  refine ⟨fun hmem => ?_, h.2⟩
  have hs := (h.1 _ hmem).1
  rw [show strStartsWith "--user-data-dir=/caller/dir" "--user-data-dir" = true from by decide]
    at hs
  exact absurd hs (by decide)

/-- The `Promise.all` aggregation resolves exactly when every element
resolved. -/
theorem collectAll_isOk (l : List (Except String (List ISession))) :
    resultIsOk (collectAll l) = l.all resultIsOk := by
  induction l with
  | nil => rfl
  | cons x xs ih =>
      cases x with
      | error e => simp [collectAll, resultIsOk]
      | ok s =>
          cases h : collectAll xs with
          | error e =>
              simp [collectAll, h, resultIsOk, List.all_cons, ← ih]
          | ok t =>
              simp [collectAll, h, resultIsOk, List.all_cons, ← ih]

/-- C2 counterexample: two live instances; instance B's fetch resolves
with one target while instance A's fetch rejects — and the whole
listing rejects, returning nothing for B, refuting partial-failure
tolerance. -/
theorem c2_counterexample :
    c2Fetch "41002" = Except.ok [c2Session] ∧
    resultIsOk (getBrowserSessions c2Config c2Fetch c2BrowserB) = true ∧
    resultIsOk (getDebuggingPages c2Config c2Fetch [c2BrowserA, c2BrowserB]) = false := by
  refine ⟨rfl, rfl, rfl⟩

/-- C2 amended: the listing resolves if and only if every live
instance's lookup resolves — a missing port or a single failed fetch
rejects the entire aggregated listing (`Promise.all` semantics), not
just that instance's contribution. -/
theorem c2_amended_all_or_nothing (c : ProxyConfig)
    (fetch : String → Except String (List JsonSession)) (browsers : List IBrowser) :
    resultIsOk (getDebuggingPages c fetch browsers) =
      browsers.all (fun b => resultIsOk (getBrowserSessions c fetch b)) := by
  unfold getDebuggingPages
  rw [collectAll_isOk]
  induction browsers with
  | nil => rfl
  | cons x xs ih => simp [List.all_cons, ih]

/-- C9: the rewritten descriptor preserves every metadata field of the
source target (`id`, `title`, `type`, `url`, `description`); its
WebSocket debugger URL is the source URL with only `protocol`, `host`
and `slashes` overridden (path and search untouched); and its
devtools-frontend URL keeps the source pathname, replacing only the
search string (the WebSocket-location query parameter). -/
theorem c9_rewriteSession_preserves (c : ProxyConfig) (b : IBrowser) (port : String)
    (s : JsonSession) :
    (rewriteSession c b port s).id = s.id ∧
    (rewriteSession c b port s).title = s.title ∧
    (rewriteSession c b port s).type = s.type ∧
    (rewriteSession c b port s).url = s.url ∧
    (rewriteSession c b port s).description = s.description ∧
    (∃ newHost newProto,
      (rewriteSession c b port s).webSocketDebuggerUrl =
        urlFormat { s.webSocketDebuggerUrl with
          protocol := some newProto, host := some newHost, slashes := true }) ∧
    (∃ q, (rewriteSession c b port s).devtoolsFrontendUrl =
      urlFormat { protocol := none, slashes := false, host := none, port := none
                  pathname := s.devtoolsFrontendUrl.pathname, search := some q }) :=
  ⟨rfl, rfl, rfl, rfl, rfl,
    ⟨externalHost c, externalProtocol c, rfl⟩,
    ⟨"?" ++ externalProtocol c ++ "=" ++ externalHost c ++
      ({ s.webSocketDebuggerUrl with
          host := some (externalHost c), protocol := some (externalProtocol c),
          slashes := true } : ParsedUrl).path, rfl⟩⟩

/-- C5 counterexample: when the instance-created hook (`browserHook`)
rejects, `setupBrowser` itself rejects — the instance is never pushed
onto the registry and nothing is returned — refuting "a hook failure is
caught and logged and setupBrowser still completes, registers the
instance, and returns it". -/
theorem c5_counterexample :
    resultIsOk (setupBrowser HookResult.throws [HookResult.ok] c5Browser []).result = false ∧
    (setupBrowser HookResult.throws [HookResult.ok] c5Browser []).registry = [] := by
  exact ⟨rfl, rfl⟩

/-- C5 amended: a `pageHook` failure never aborts `setupBrowser` (the
`setupPage` promises are not awaited, so such failures surface only as
unhandled rejections, uncaught and unlogged by this flow), and when
`browserHook` resolves, `setupBrowser` completes and registers the
instance whatever the page hooks did; but a `browserHook` failure
rejects `setupBrowser` before registration. -/
theorem c5_amended_hook_failures (pageHooks : List HookResult) (b : IBrowser)
    (reg : List IBrowser) :
    (setupBrowser HookResult.ok pageHooks b reg).result =
      Except.ok { b with isOpen := true, keepaliveTimeout := none,
                         exitListenerInstalled := true } ∧
    (setupBrowser HookResult.ok pageHooks b reg).registry =
      reg ++ [{ b with isOpen := true, keepaliveTimeout := none,
                       exitListenerInstalled := true }] ∧
    resultIsOk (setupBrowser HookResult.throws pageHooks b reg).result = false ∧
    (setupBrowser HookResult.throws pageHooks b reg).registry = reg :=
  ⟨rfl, rfl, rfl, rfl⟩

end ChromeHelper
